import Mathlib

set_option maxRecDepth 8000

/-!
Verification development for the multimodal-chatbot backend
(`backend/services/csv_service.py`, `backend/services/llm_service.py`,
`backend/database/repository.py`, `backend/database/models.py`,
`backend/api/routes/{chat,csv,image}.py`).

The Python code is shallowly embedded: pure computations become Lean
functions, the SQLAlchemy store becomes an explicit state type with the
repository functions as state transformers, and `datetime.utcnow()` is
modelled as an explicit clock argument (a natural number tick).
Floating-point numerics of pandas are idealised as exact rational
arithmetic, represented by explicit integer fractions; on the concrete
inputs appearing in the claims every intermediate value is exactly
representable in double precision, so the idealisation is faithful there.
-/

/-! ## String utilities (model of the Python string primitives used) -/

/-- Model of Python `s.startswith(p)` on explicit character lists. -/
def beginsWith : List Char → List Char → Bool
  | [], _ => true
  | _ :: _, [] => false
  | a :: ps, b :: ss => a = b && beginsWith ps ss

/-- Model of Python `s[:n]` (code-point slice). -/
def strTake (n : Nat) (s : String) : String := String.mk (s.data.take n)

/-- Split a character list at every occurrence of the separator character.
Model of Python `str.split(sep)` for a one-character separator. -/
def splitOnChar (sep : Char) : List Char → List (List Char)
  | [] => [[]]
  | c :: cs =>
    let rest := splitOnChar sep cs
    if c = sep then
      [] :: rest
    else
      match rest with
      | [] => [[c]]
      | r :: rs => (c :: r) :: rs

/-! ## Exact fraction arithmetic

Unnormalized fractions `num / den` with a positive denominator, used to
model the exact values of the floating-point computations of pandas.
`round(x, 2)` in Python is round-half-to-even; pandas `std` is the sample
standard deviation (`ddof = 1`). -/

/-- An integer fraction; every constructor application in this development
keeps `den` positive. -/
structure Frac where
  num : ℤ
  den : ℤ
deriving DecidableEq, Repr

/-- The integer `n` as a fraction. -/
def fInt (n : ℤ) : Frac := ⟨n, 1⟩

/-- Fraction addition. -/
def fAdd (a b : Frac) : Frac := ⟨a.num * b.den + b.num * a.den, a.den * b.den⟩

/-- Fraction subtraction. -/
def fSub (a b : Frac) : Frac := ⟨a.num * b.den - b.num * a.den, a.den * b.den⟩

/-- Fraction multiplication. -/
def fMul (a b : Frac) : Frac := ⟨a.num * b.num, a.den * b.den⟩

/-- Fraction division; the sign is moved to the numerator so the
denominator stays positive. -/
def fDiv (a b : Frac) : Frac :=
  if b.num < 0 then ⟨-(a.num * b.den), a.den * (-b.num)⟩
  else ⟨a.num * b.den, a.den * b.num⟩

/-- Order on fractions (denominators positive). -/
def fLe (a b : Frac) : Bool := a.num * b.den ≤ b.num * a.den

/-- Strict order on fractions (denominators positive). -/
def fLt (a b : Frac) : Bool := a.num * b.den < b.num * a.den

/-- Floor of a fraction (Euclidean division by the positive denominator). -/
def fFloor (a : Frac) : ℤ := Int.ediv a.num a.den

/-- Sum of a list of fractions. -/
def fSum (xs : List Frac) : Frac := xs.foldr fAdd (fInt 0)

/-- Round-half-to-even of a fraction to an integer (Python `round(x)`):
`⌊x⌋` when the fractional part is below one half, `⌊x⌋ + 1` above, and the
even neighbour at an exact tie. -/
def fRoundHalfEven (q : Frac) : ℤ :=
  let f := fFloor q
  let r := fSub q (fInt f)
  if fLt r ⟨1, 2⟩ then f
  else if fLt ⟨1, 2⟩ r then f + 1
  else if f % 2 = 0 then f else f + 1

/-- Round a fraction to two decimal places, half to even
(Python `round(x, 2)`); the result is a canonical fraction over 100. -/
def round2 (q : Frac) : Frac := ⟨fRoundHalfEven (fMul q (fInt 100)), 100⟩

/-- The value `n / 100`: a two-decimal quantity in its canonical form,
used to state results of `round2`. -/
def cent (n : ℤ) : Frac := ⟨n, 100⟩

/-- Integer square root by the digit-pair recursion, with explicit fuel so
that the recursion is structural; `isqrtAux fuel n` is `⌊√n⌋` whenever
`n < 4 ^ fuel`. -/
def isqrtAux : Nat → Nat → Nat
  | 0, _ => 0
  | fuel + 1, n =>
    if n < 2 then n
    else
      let r := 2 * isqrtAux fuel (n / 4)
      if (r + 1) * (r + 1) ≤ n then r + 1 else r

/-- Integer square root (`⌊√n⌋` for every `n < 4 ^ 128`, which covers every
value arising in this development). -/
def isqrt (n : Nat) : Nat := isqrtAux 128 n

/-- Two-decimal rounding of the exact square root of a nonnegative
fraction: the integer nearest to `100 * sqrt v` (half to even at an exact
tie) over 100, computed with integer square root.  Models
`round(std, 2)` where `std` is the square root of the sample variance. -/
def sqrtRound2 (v : Frac) : Frac :=
  let scaled := fMul v (fInt 10000)
  let f : ℤ := (isqrt (Int.toNat (fFloor scaled)) : ℤ)
  let n : ℤ :=
    if fLt scaled ⟨(2 * f + 1) ^ 2, 4⟩ then f
    else if fLt ⟨(2 * f + 1) ^ 2, 4⟩ scaled then f + 1
    else if f % 2 = 0 then f else f + 1
  ⟨n, 100⟩

/-- Insertion into a sorted list of fractions. -/
def insertSorted (x : Frac) : List Frac → List Frac
  | [] => [x]
  | y :: ys => if fLe x y then x :: y :: ys else y :: insertSorted x ys

/-- Insertion sort on fractions (the sorted order pandas takes the median
over). -/
def sortFracs (xs : List Frac) : List Frac := xs.foldr insertSorted []

/-- Mean of a nonempty list (pandas `Series.mean`), 0 on the empty list. -/
def fMean (xs : List Frac) : Frac :=
  if xs.length = 0 then fInt 0 else fDiv (fSum xs) (fInt xs.length)

/-- Median (pandas `Series.median`): middle element of the sorted values,
or the average of the two middle elements for even length. -/
def fMedian (xs : List Frac) : Frac :=
  let s := sortFracs xs
  let n := s.length
  if n = 0 then fInt 0
  else if n % 2 = 1 then s.getD (n / 2) (fInt 0)
  else fDiv (fAdd (s.getD (n / 2 - 1) (fInt 0)) (s.getD (n / 2) (fInt 0))) (fInt 2)

/-- Minimum of a nonempty list (pandas `Series.min`), 0 on the empty list. -/
def fMinimum (xs : List Frac) : Frac :=
  match xs with
  | [] => fInt 0
  | y :: ys => ys.foldl (fun a b => if fLe a b then a else b) y

/-- Maximum of a nonempty list (pandas `Series.max`), 0 on the empty list. -/
def fMaximum (xs : List Frac) : Frac :=
  match xs with
  | [] => fInt 0
  | y :: ys => ys.foldl (fun a b => if fLe a b then b else a) y

/-- Sample variance with `ddof = 1` (the square of pandas `Series.std`);
0 when fewer than two values. -/
def sampleVariance (xs : List Frac) : Frac :=
  let n := xs.length
  if n ≤ 1 then fInt 0
  else
    let m := fMean xs
    fDiv (fSum (xs.map (fun x => fMul (fSub x m) (fSub x m)))) (fInt (n - 1))

/-! ## Numeric-cell parsing

Model of the numeric inference pandas `read_csv` performs on a column:
a cell is numeric when it is an optionally signed decimal numeral
(digits, optionally with a fractional part).  Scientific notation and
locale forms are not exercised by any claim and are not modelled. -/

/-- True when every character is a decimal digit. -/
def allDigits (cs : List Char) : Bool := cs.all (·.isDigit)

/-- Numeric value of a digit string. -/
def digitsVal (cs : List Char) : Nat :=
  cs.foldl (fun a c => a * 10 + (c.toNat - 48)) 0

/-- Parse an unsigned decimal numeral (`"12"`, `"3.5"`, `".5"`, `"2."`). -/
def parseUnsigned (cs : List Char) : Option Frac :=
  match splitOnChar '.' cs with
  | [ip] =>
    if ip ≠ [] ∧ allDigits ip then some (fInt (digitsVal ip)) else none
  | [ip, fp] =>
    if (ip ≠ [] ∨ fp ≠ []) ∧ allDigits ip ∧ allDigits fp then
      some (fAdd (fInt (digitsVal ip)) (fDiv (fInt (digitsVal fp)) (fInt (10 ^ fp.length))))
    else none
  | _ => none

/-- Parse an optionally signed decimal numeral to a fraction. -/
def parseNumCell : List Char → Option Frac
  | '-' :: rest => (parseUnsigned rest).map (fun q => ⟨-q.num, q.den⟩)
  | '+' :: rest => parseUnsigned rest
  | cs => parseUnsigned cs

/-! ## CSV service (`backend/services/csv_service.py`, class `CSVService`)

A parsed table is the header plus rows of optional cells; an empty raw
field is a missing value (pandas `NaN`).  `MAX_ROWS_DISPLAY = 100`,
`MAX_ROWS_CONTEXT = 1000` as in the source.  The `pd.read_csv` call is
modelled for plain comma-separated content without quoting or escaping
(all inputs exercised by the claims); blank lines are skipped as pandas
does by default, and short rows are padded with missing values. -/

def MAX_ROWS_DISPLAY : Nat := 100

def MAX_ROWS_CONTEXT : Nat := 1000

/-- Lines of the raw content, blank lines skipped. -/
def splitLines (content : String) : List String :=
  ((splitOnChar '\n' content.data).map (fun l => String.mk l)).filter (· ≠ "")

/-- Pad or cut a row of cells to the header width (missing cells are `none`). -/
def padTo (n : Nat) (cells : List (Option String)) : List (Option String) :=
  cells.take n ++ List.replicate (n - cells.length) none

/-- Raw field to cell: the empty field is a missing value. -/
def rawCell (s : String) : Option String := if s = "" then none else some s

/-- Header and data rows of the content (model of the dataframe produced by
`pd.read_csv(StringIO(content))`). -/
def parseGrid (content : String) : List String × List (List (Option String)) :=
  match splitLines content with
  | [] => ([], [])
  | h :: rest =>
    let header := (splitOnChar ',' h.data).map String.mk
    let rows := rest.map (fun line =>
      padTo header.length
        (((splitOnChar ',' line.data).map String.mk).map rawCell))
    (header, rows)

/-- Number of data rows in the raw content (independent row count used to
state claims about `row_count`). -/
def dataRowCount (content : String) : Nat := ((splitLines content).drop 1).length

/-- Cells of column `j` over the given rows. -/
def colCells (rows : List (List (Option String))) (j : Nat) : List (Option String) :=
  rows.map (fun r => r.getD j none)

/-- A column is numeric when every present cell parses as a number
(pandas dtype inference: such a column gets dtype `int64`/`float64`). -/
def isNumericCol (rows : List (List (Option String))) (j : Nat) : Bool :=
  (colCells rows j).all (fun c =>
    match c with
    | none => true
    | some s => (parseNumCell s.data).isSome)

/-- Present cells of a numeric column, as fractions. -/
def numericColVals (rows : List (List (Option String))) (j : Nat) : List Frac :=
  (colCells rows j).filterMap (fun c => c.bind (fun s => parseNumCell s.data))

/-- Number of missing cells in column `j` (`df[col].isnull().sum()`). -/
def missingCount (rows : List (List (Option String))) (j : Nat) : Nat :=
  ((colCells rows j).filter (fun c => c.isNone)).length

/-- Per-column statistics block of `parse_csv` (`numeric_stats[col]`). -/
structure NumStats where
  mean : Frac
  median : Frac
  min : Frac
  max : Frac
  std : Frac
  count : Nat
  missing : Nat
deriving DecidableEq, Repr

/-- Statistics of one numeric column (`csv_service.py` lines 56-67). -/
def statsOfCol (rows : List (List (Option String))) (j : Nat) : NumStats :=
  let vals := numericColVals rows j
  { mean := round2 (fMean vals)
    median := round2 (fMedian vals)
    min := round2 (fMinimum vals)
    max := round2 (fMaximum vals)
    std := if vals.length > 1 then sqrtRound2 (sampleVariance vals) else fInt 0
    count := vals.length
    missing := missingCount rows j }

/-- Indices of the header columns. -/
def colIndices (header : List String) : List Nat := List.range header.length

/-- Names of the numeric columns in header order
(`df.select_dtypes(include=[number]).columns.tolist()`). -/
def numericColumnsOf (header : List String) (rows : List (List (Option String))) :
    List String :=
  ((colIndices header).filter (fun j => isNumericCol rows j)).map
    (fun j => header.getD j "")

/-- Names of the non-numeric (object) columns in header order. -/
def textColumnsOf (header : List String) (rows : List (List (Option String))) :
    List String :=
  ((colIndices header).filter (fun j => !isNumericCol rows j)).map
    (fun j => header.getD j "")

/-- The `numeric_stats` association list: one entry per numeric column with
at least one present value, in header order. -/
def numericStatsOf (header : List String) (rows : List (List (Option String))) :
    List (String × NumStats) :=
  ((colIndices header).filter (fun j =>
      isNumericCol rows j && (numericColVals rows j).length > 0)).map
    (fun j => (header.getD j "", statsOfCol rows j))

/-- The `missing_values` association list: per-column null counts in header
order (`df.isnull().sum().to_dict()`). -/
def missingValuesOf (header : List String) (rows : List (List (Option String))) :
    List (String × Nat) :=
  (colIndices header).map (fun j => (header.getD j "", missingCount rows j))

/-- The strictly-greater scan over `missing_values` that finds the most
missing column (`csv_service.py` lines 74-79). -/
def mostMissingScan (mv : List (String × Nat)) : Option String × Nat :=
  mv.foldl
    (fun acc kv => if kv.2 > acc.2 then (some kv.1, kv.2) else acc)
    (none, 0)

/-- Inferred dtype name of a column, as reported in `dtypes`. -/
def dtypeOf (rows : List (List (Option String))) (j : Nat) : String :=
  if isNumericCol rows j then
    if (missingCount rows j = 0) &&
        ((colCells rows j).all (fun c =>
          match c with
          | none => true
          | some s => !s.data.contains '.')) then "int64" else "float64"
  else "object"

/-- The `dtypes` association list. -/
def dtypesOf (header : List String) (rows : List (List (Option String))) :
    List (String × String) :=
  (colIndices header).map (fun j => (header.getD j "", dtypeOf rows j))

/-! ### Sample rows

`sample_rows = df.head(100).fillna("").to_dict(orient="records")` followed
by a cleanup loop that replaces any remaining NaN value by `None`
(`csv_service.py` lines 82-90).  A JSON cell value is a number, a string,
`None`, or a (pre-cleanup) NaN. -/

inductive JsonVal where
  | num (q : Frac)
  | str (s : String)
  | null
  | nan
deriving DecidableEq, Repr

/-- Value of one dataframe cell after `fillna("")`: missing becomes the
empty string; otherwise a numeric column holds its parsed number and an
object column holds the raw string. -/
def fillCell (numeric : Bool) (cell : Option String) : JsonVal :=
  match cell with
  | none => JsonVal.str ""
  | some s =>
    if numeric then
      match parseNumCell s.data with
      | some q => JsonVal.num q
      | none => JsonVal.str s
    else JsonVal.str s

/-- The cleanup loop body: any remaining NaN becomes `None`, every other
value is kept. -/
def cleanVal : JsonVal → JsonVal
  | JsonVal.nan => JsonVal.null
  | v => v

/-- One record of `sample_rows`: column name paired with cell value. -/
def sampleRowOf (header : List String) (rows : List (List (Option String)))
    (r : List (Option String)) : List (String × JsonVal) :=
  (colIndices header).map (fun j =>
    (header.getD j "", cleanVal (fillCell (isNumericCol rows j) (r.getD j none))))

/-- The up-to-100 sample rows (`df.head(MAX_ROWS_DISPLAY)` records). -/
def sampleRowsOf (header : List String) (rows : List (List (Option String))) :
    List (List (String × JsonVal)) :=
  (rows.take MAX_ROWS_DISPLAY).map (sampleRowOf header rows)

/-! ### The `parse_csv` result structures -/

/-- The `csv_data` dictionary returned by `CSVService.parse_csv`. -/
structure CsvData where
  filename : String
  columns : List String
  row_count : Nat
  displayed_rows : Nat
  truncated : Bool
  numeric_columns : List String
  text_columns : List String
  datetime_columns : List String
  dtypes : List (String × String)
  sample_rows : List (List (String × JsonVal))
  numeric_stats : List (String × NumStats)
  missing_values : List (String × Nat)
deriving DecidableEq, Repr

/-- The `summary` dictionary returned by `CSVService.parse_csv`. -/
structure CsvSummary where
  row_count : Nat
  column_count : Nat
  columns : List String
  numeric_columns : List String
  text_columns : List String
  missing_values : List (String × Nat)
  numeric_stats : List (String × NumStats)
  most_missing_column : Option String
  most_missing_count : Nat
  text_summary : String
  sample_rows : List (List (String × JsonVal))
deriving DecidableEq, Repr

/-- Rendering of `_generate_text_summary`: dataset name, row and column
counts, column partition and missing-value report, joined by newlines
(number formatting is plain decimal; no claim inspects this string). -/
def generateTextSummary (filename : String) (header : List String)
    (rowsFull : List (List (Option String)))
    (numericCols textCols : List String)
    (mv : List (String × Nat)) : String :=
  let missingPart :=
    if (mv.filter (fun kv => kv.2 > 0)).isEmpty then
      "Missing values: None"
    else
      String.intercalate "\n"
        ((mv.filter (fun kv => kv.2 > 0)).map
          (fun kv => "  - " ++ kv.1 ++ ": " ++ toString kv.2))
  String.intercalate "\n"
    [ "Dataset: " ++ filename
    , "- Total rows: " ++ toString rowsFull.length
    , "- Total columns: " ++ toString header.length
    , "Numeric columns: " ++ String.intercalate ", " numericCols
    , "Text columns: " ++ String.intercalate ", " textCols
    , missingPart ]

/-- The truncated working copy (`df` as opposed to `df_full`): the parsed
rows, cut to `MAX_ROWS_CONTEXT` when they exceed the cap. -/
def workingRows (content : String) : List (List (Option String)) :=
  if (parseGrid content).2.length > MAX_ROWS_CONTEXT then
    (parseGrid content).2.take MAX_ROWS_CONTEXT
  else (parseGrid content).2

/-- Model of `CSVService.parse_csv`: parse, truncate the working copy to
`MAX_ROWS_CONTEXT` rows while keeping the full row count, compute column
types, numeric statistics, missing values, the most-missing scan and the
sample rows, and return `(csv_data, summary)`. -/
def parse_csv (content : String) (filename : String) : CsvData × CsvSummary :=
  let grid := parseGrid content
  let header := grid.1
  let rowsFull := grid.2
  let truncated : Bool := decide (rowsFull.length > MAX_ROWS_CONTEXT)
  let rows := workingRows content
  let numericCols := numericColumnsOf header rows
  let textCols := textColumnsOf header rows
  let stats := numericStatsOf header rows
  let mv := missingValuesOf header rows
  let mm := mostMissingScan mv
  let samples := sampleRowsOf header rows
  let textSummary := generateTextSummary filename header rowsFull numericCols textCols mv
  ( { filename := filename
      columns := header
      row_count := rowsFull.length
      displayed_rows := rows.length
      truncated := truncated
      numeric_columns := numericCols
      text_columns := textCols
      datetime_columns := []
      dtypes := dtypesOf header rows
      sample_rows := samples
      numeric_stats := stats
      missing_values := mv }
  , { row_count := rowsFull.length
      column_count := header.length
      columns := header
      numeric_columns := numericCols
      text_columns := textCols
      missing_values := mv
      numeric_stats := stats
      most_missing_column := mm.1
      most_missing_count := mm.2
      text_summary := textSummary
      sample_rows := samples.take 5 } )

/-! ## Database repository (`backend/database/repository.py` over the models
of `backend/database/models.py`)

The SQLAlchemy store is embedded as a list of conversation records, each
holding its messages and its (at most one) image context and CSV context —
the two context tables have a unique foreign key to `conversations` and a
cascade delete, so owning them inside the conversation record is faithful.
`datetime.utcnow()` is an explicit `now : Nat` argument and `uuid.uuid4()`
an explicit identifier argument; freshness of generated identifiers is a
hypothesis where it matters.  Operations that raise in Python
(`add_message` on a missing conversation) return `Option`; a rolled-back
transaction leaves the store unchanged. -/

/-- The `csv_info` metadata attached to an upload-acknowledgment message. -/
structure CsvMsgInfo where
  filename : String
  rows : Nat
  columns : Nat
  url : Option String
deriving DecidableEq, Repr

/-- A row of the `messages` table. -/
structure MessageRec where
  id : String
  role : String
  content : String
  timestamp : Nat
  image_url : Option String
  csv_info : Option CsvMsgInfo
  chart_data : Option String
deriving DecidableEq, Repr

/-- A row of the `image_contexts` table (without its redundant
`conversation_id`, which is the owning record's id). -/
structure ImageContextRec where
  image_base64 : String
  filename : Option String
  content_type : Option String
  uploaded_at : Nat
deriving DecidableEq, Repr

/-- The `full_csv_data` JSON payload stored by `set_active_csv`. -/
structure FullCsvData where
  sample_rows : List (List (String × JsonVal))
  numeric_stats : List (String × NumStats)
  missing_values : List (String × Nat)
  dtypes : List (String × String)
deriving DecidableEq, Repr

/-- A row of the `csv_contexts` table. -/
structure CSVContextRec where
  filename : String
  row_count : Nat
  column_count : Nat
  columns : List String
  numeric_columns : List String
  text_columns : List String
  csv_data : FullCsvData
  summary_text : String
  uploaded_at : Nat
deriving DecidableEq, Repr

/-- A row of the `conversations` table together with its owned messages and
context rows. -/
structure Conversation where
  id : String
  created_at : Nat
  updated_at : Nat
  title : Option String
  has_active_image : Bool
  image_filename : Option String
  has_active_csv : Bool
  csv_filename : Option String
  csv_summary : Option String
  messages : List MessageRec
  image_context : Option ImageContextRec
  csv_context : Option CSVContextRec
deriving DecidableEq, Repr

/-- The whole store. -/
abbrev Store : Type := List Conversation

/-- Lookup of a conversation by id
(`db.query(Conversation).filter(Conversation.id == conv_id).first()`). -/
def findConv (st : Store) (cid : String) : Option Conversation :=
  st.find? (fun c => c.id == cid)

/-- Apply an update to the conversation with the given id. -/
def updateConv (st : Store) (cid : String) (f : Conversation → Conversation) : Store :=
  st.map (fun c => if c.id == cid then f c else c)

/-- Model of `create_conversation`: a fresh conversation with unset title,
cleared flags and empty contexts. -/
def create_conversation (st : Store) (newId : String) (now : Nat) :
    Store × Conversation :=
  let c : Conversation :=
    { id := newId
      created_at := now
      updated_at := now
      title := none
      has_active_image := false
      image_filename := none
      has_active_csv := false
      csv_filename := none
      csv_summary := none
      messages := []
      image_context := none
      csv_context := none }
  (st ++ [c], c)

/-- Python truthiness of the `title` column: `None` and the empty string are
both falsy (`if not conversation.title`). -/
def titleFalsy : Option String → Bool
  | none => true
  | some s => s == ""

/-- The message record built by `add_message`. -/
def mkMessageRec (msgId role content : String) (image_url : Option String)
    (csv_info : Option CsvMsgInfo) (chart_data : Option String) (now : Nat) :
    MessageRec :=
  { id := msgId
    role := role
    content := content
    timestamp := now
    image_url := image_url
    csv_info := csv_info
    chart_data := chart_data }

/-- Effect of `add_message` on the found conversation: append the message,
refresh `updated_at`, and set the title from the first user message whose
content does not start with `[` while the title is still falsy
(`repository.py` lines 225-231). -/
def msgApplied (role content : String) (image_url : Option String)
    (csv_info : Option CsvMsgInfo) (chart_data : Option String) (now : Nat)
    (msgId : String) (c : Conversation) : Conversation :=
  { c with
    messages := c.messages ++ [mkMessageRec msgId role content image_url csv_info chart_data now]
    updated_at := now
    title :=
      if titleFalsy c.title && (role == "user") && !(beginsWith "[".data content.data) then
        some (strTake 100 content)
      else c.title }

/-- Model of `add_message`; `none` models the `ValueError` raised when the
conversation does not exist. -/
def add_message (st : Store) (cid role content : String)
    (image_url : Option String) (csv_info : Option CsvMsgInfo)
    (chart_data : Option String) (now : Nat) (msgId : String) :
    Option (Store × MessageRec) :=
  match findConv st cid with
  | none => none
  | some _ =>
    some (updateConv st cid (msgApplied role content image_url csv_info chart_data now msgId),
          mkMessageRec msgId role content image_url csv_info chart_data now)

/-- The last `n` elements of a list. -/
def lastN (n : Nat) (xs : List α) : List α := xs.drop (xs.length - n)

/-- Model of `get_message_history_for_llm`: the most recent `limit` messages
in chronological order, as role/content pairs.  (The query orders by
timestamp descending, limits, and reverses; messages are stored in
insertion order with non-decreasing timestamps in the sequential
pipeline, so this is the suffix of length `limit`.) -/
def get_message_history_for_llm (st : Store) (cid : String) (limit : Nat) :
    List (String × String) :=
  match findConv st cid with
  | none => []
  | some c => (lastN limit c.messages).map (fun m => (m.role, m.content))

/-- Per-conversation effect of `set_active_image` (`repository.py` lines
315-332): replace the image context record and set the flags. -/
def imageCtxUpdate (image_base64 filename : String) (now : Nat)
    (c : Conversation) : Conversation :=
  { c with
    image_context := some
      { image_base64 := image_base64
        filename := some filename
        content_type := none
        uploaded_at := now }
    has_active_image := true
    image_filename := some filename
    updated_at := now }

/-- Model of `set_active_image`: replace the image context and set the
conversation flags; a missing conversation is a silent no-op. -/
def set_active_image (st : Store) (cid image_base64 filename : String) (now : Nat) :
    Store :=
  match findConv st cid with
  | none => st
  | some _ => updateConv st cid (imageCtxUpdate image_base64 filename now)

/-- Model of `get_active_image`. -/
def get_active_image (st : Store) (cid : String) : Option String :=
  ((findConv st cid).bind (fun c => c.image_context)).map (fun ic => ic.image_base64)

/-- Model of `clear_image_context`: drop the image context and reset the
flags, refreshing `updated_at`; a missing conversation is a no-op. -/
def clear_image_context (st : Store) (cid : String) (now : Nat) : Store :=
  updateConv st cid (fun c =>
    { c with
      image_context := none
      has_active_image := false
      image_filename := none
      updated_at := now })

/-- Per-conversation effect of `set_active_csv` (`repository.py` lines
409-442): replace the CSV context record, built from the `csv_data` dict,
and set the flags. -/
def csvCtxUpdate (csv_data : CsvData) (filename summary : String) (now : Nat)
    (c : Conversation) : Conversation :=
  { c with
    csv_context := some
      { filename := filename
        row_count := csv_data.row_count
        column_count := csv_data.columns.length
        columns := csv_data.columns
        numeric_columns := csv_data.numeric_columns
        text_columns := csv_data.text_columns
        csv_data :=
          { sample_rows := csv_data.sample_rows
            numeric_stats := csv_data.numeric_stats
            missing_values := csv_data.missing_values
            dtypes := csv_data.dtypes }
        summary_text := summary
        uploaded_at := now }
    has_active_csv := true
    csv_filename := some filename
    csv_summary := some summary
    updated_at := now }

/-- Model of `set_active_csv`: on a found conversation, replace any existing
CSV context by the new record and set the flags; a missing conversation
is a no-op.  A failed transaction is rolled back, leaving the store
unchanged — such an attempt appears as the identity step of the step
relation below. -/
def set_active_csv (st : Store) (cid : String) (csv_data : CsvData)
    (filename summary : String) (now : Nat) : Store :=
  match findConv st cid with
  | none => st
  | some _ => updateConv st cid (csvCtxUpdate csv_data filename summary now)

/-- Model of `get_active_csv` (the returned dict is a projection of the
stored record, so the record itself is returned). -/
def get_active_csv (st : Store) (cid : String) : Option CSVContextRec :=
  (findConv st cid).bind (fun c => c.csv_context)

/-- Model of `get_csv_summary`. -/
def get_csv_summary (st : Store) (cid : String) : Option String :=
  (findConv st cid).bind (fun c => c.csv_summary)

/-- Model of `clear_csv_context`: drop the CSV context and reset the flags,
refreshing `updated_at`; a missing conversation is a no-op. -/
def clear_csv_context (st : Store) (cid : String) (now : Nat) : Store :=
  updateConv st cid (fun c =>
    { c with
      csv_context := none
      has_active_csv := false
      csv_filename := none
      csv_summary := none
      updated_at := now })

/-- Model of `clear_all_context`: clear the image context, then the CSV
context. -/
def clear_all_context (st : Store) (cid : String) (now : Nat) : Store :=
  clear_csv_context (clear_image_context st cid now) cid now

/-- Model of `delete_conversation` (cascade removes the owned rows). -/
def delete_conversation (st : Store) (cid : String) : Store :=
  st.filter (fun c => !(c.id == cid))

/-! ### Step relation and reachability

One step is one repository operation (the operations the API layer can
trigger).  A replace attempt whose transaction fails is rolled back by
`set_active_csv` (`db.rollback()`), leaving the store unchanged, and is
the `setCsvRolledBack` step. -/

inductive Step : Store → Store → Prop
  | create (st : Store) (newId : String) (now : Nat)
      (h : findConv st newId = none) :
      Step st (create_conversation st newId now).1
  | message (st st' : Store) (cid role content : String)
      (image_url : Option String) (csv_info : Option CsvMsgInfo)
      (chart_data : Option String) (now : Nat) (msgId : String) (m : MessageRec)
      (h : add_message st cid role content image_url csv_info chart_data now msgId
             = some (st', m)) :
      Step st st'
  | setImage (st : Store) (cid image_base64 filename : String) (now : Nat) :
      Step st (set_active_image st cid image_base64 filename now)
  | clearImage (st : Store) (cid : String) (now : Nat) :
      Step st (clear_image_context st cid now)
  | setCsv (st : Store) (cid : String) (csv_data : CsvData)
      (filename summary : String) (now : Nat) :
      Step st (set_active_csv st cid csv_data filename summary now)
  | setCsvRolledBack (st : Store) : Step st st
  | clearCsv (st : Store) (cid : String) (now : Nat) :
      Step st (clear_csv_context st cid now)
  | clearAll (st : Store) (cid : String) (now : Nat) :
      Step st (clear_all_context st cid now)
  | deleteConv (st : Store) (cid : String) : Step st (delete_conversation st cid)

/-- Stores reachable from the initial empty store by repository steps. -/
inductive Reachable : Store → Prop
  | init : Reachable []
  | step (st st' : Store) : Reachable st → Step st st' → Reachable st'

/-! ## Completion orchestrator
(`backend/services/llm_service.py`, `LLMService.generate_response_stream`)

A message payload entry is either plain text or the text-plus-image pair
the vision call sends.  The outcome of one provider call is the list of
(nonempty) chunks it yielded before either finishing or raising, plus the
exception text when it raised.  The orchestrator is a function of the two
call outcomes to the produced chunk sequence and the list of issued calls.
The system prompt built by `_build_system_prompt` from the CSV context is
an opaque input string here: no claim inspects its text. -/

inductive MsgContent where
  | text (s : String)
  | textAndImage (text : String) (imageUrl : String)
deriving DecidableEq, Repr

/-- One payload entry (`{\x7brole, content\x7d}` dict). -/
structure ChatMsg where
  role : String
  content : MsgContent
deriving DecidableEq, Repr

/-- Primary model name (`self.model`). -/
def model_name : String := "meta-llama/llama-4-scout-17b-16e-instruct"

/-- Vision model name (`self.vision_model`, same literal in the source). -/
def vision_model : String := "meta-llama/llama-4-scout-17b-16e-instruct"

/-- Fallback model name (`self.fallback_model`). -/
def fallback_model : String := "llama-3.3-70b-versatile"

/-- `self.supports_vision`. -/
def supports_vision : Bool := true

/-- Python truthiness of the optional image argument (`if image_base64`). -/
def imageTruthy : Option String → Bool
  | none => false
  | some s => !(s == "")

/-- The history-filter predicate of the prompt assembly
(`llm_service.py` line 52): drop a message whose content starts with
`[Uploaded` or `[Loaded`. -/
def isDroppedFromHistory (content : String) : Bool :=
  beginsWith "[Uploaded".data content.data || beginsWith "[Loaded".data content.data

/-- The history portion of the prompt: the last 15 entries
(`history[-15:]`), minus the dropped marker messages, as text entries. -/
def historyForPrompt (history : List (String × String)) : List ChatMsg :=
  ((lastN 15 history).filter (fun rc => !isDroppedFromHistory rc.2)).map
    (fun rc => { role := rc.1, content := MsgContent.text rc.2 })

/-- The current user message: text plus image data URL when an image is
present and vision is supported, otherwise plain text. -/
def currentUserMsg (message : String) (image_base64 : Option String) : ChatMsg :=
  if imageTruthy image_base64 && supports_vision then
    { role := "user"
      content := MsgContent.textAndImage message
        ("data:image/jpeg;base64," ++ image_base64.getD "") }
  else
    { role := "user", content := MsgContent.text message }

/-- The full assembled payload: system prompt, filtered history, current
message (`llm_service.py` lines 48-75). -/
def buildMessages (systemPrompt message : String)
    (history : List (String × String)) (image_base64 : Option String) :
    List ChatMsg :=
  { role := "system", content := MsgContent.text systemPrompt } ::
    historyForPrompt history ++ [currentUserMsg message image_base64]

/-- The model the primary call is issued against (`model_to_use`). -/
def modelToUse (image_base64 : Option String) : String :=
  if imageTruthy image_base64 && supports_vision then vision_model else model_name

/-- The placeholder that replaces image content in the fallback payload. -/
def imagePlaceholder : String := "[Ảnh đã được gửi nhưng model không thể xử lý]"

/-- Rebuilding of one payload entry for the fallback call
(`llm_service.py` lines 100-106): list content is replaced by the
explanatory placeholder plus the extracted text; plain entries are kept. -/
def toFallbackMsg : ChatMsg → ChatMsg
  | { role := r, content := MsgContent.textAndImage t _ } =>
    { role := r, content := MsgContent.text (imagePlaceholder ++ "\n" ++ t) }
  | m => m

/-- The rebuilt fallback payload. -/
def fallbackMessagesOf (msgs : List ChatMsg) : List ChatMsg :=
  msgs.map toFallbackMsg

/-- Outcome of one provider streaming call: the chunks yielded before the
call either completed (`error = none`) or raised (`error = some e`, where
`e` is the exception text). -/
structure CallResult where
  chunks : List String
  error : Option String
deriving DecidableEq, Repr

/-- What one run of the orchestrator produced: the chunk sequence the
consumer receives and the provider calls that were issued
(model name with payload, in order). -/
structure StreamRun where
  output : List String
  calls : List (String × List ChatMsg)
deriving DecidableEq, Repr

/-- The prefix of the terminal error message yielded when both calls fail
(`llm_service.py` line 121); the suffix is the primary exception text. -/
def apologyMsg (e : String) : String :=
  "I apologize, but I encountered an error: " ++ e

/-- Model of `generate_response_stream`: issue the primary call; on its
failure rebuild the payload without image content and issue the fallback
call; if that also fails, yield the literal apology message carrying the
primary exception text.  Chunks yielded before a mid-stream failure have
already reached the consumer and stay in the output. -/
def generate_response_stream (systemPrompt message : String)
    (history : List (String × String)) (image_base64 : Option String)
    (primary fallback : CallResult) : StreamRun :=
  let msgs := buildMessages systemPrompt message history image_base64
  let m := modelToUse image_base64
  match primary.error with
  | none => { output := primary.chunks, calls := [(m, msgs)] }
  | some e =>
    let fmsgs := fallbackMessagesOf msgs
    match fallback.error with
    | none =>
      { output := primary.chunks ++ fallback.chunks
        calls := [(m, msgs), (fallback_model, fmsgs)] }
    | some _ =>
      { output := primary.chunks ++ fallback.chunks ++ [apologyMsg e]
        calls := [(m, msgs), (fallback_model, fmsgs)] }

/-! ## API routes (`backend/api/routes/chat.py`, `csv.py`, `image.py`)

Only the session handling and the store writes are modelled (the slices
the claims are about).  All three endpoints share the same get-or-create
block: a supplied identifier that is found is used; a supplied identifier
that is not found — and a missing or empty one — leads to a freshly
created conversation whose generated identifier replaces the supplied
one. -/

/-- The shared get-or-create block (`chat.py` lines 52-61, `csv.py` lines
79-87, `image.py` lines 59-67): returns the updated store and the session
identifier all subsequent operations and responses use. -/
def getOrCreateSession (st : Store) (session_id : Option String)
    (freshId : String) (now : Nat) : Store × String :=
  match session_id with
  | some sid =>
    if sid == "" then ((create_conversation st freshId now).1, freshId)
    else
      match findConv st sid with
      | some _ => (st, sid)
      | none => ((create_conversation st freshId now).1, freshId)
  | none => ((create_conversation st freshId now).1, freshId)

/-- Store-write slice of the `/api/chat/stream` endpoint: get-or-create the
session, save the user message; the returned identifier is the one
announced in the first stream event and used for every write. -/
def send_message_stream (st : Store) (session_id : Option String)
    (message : String) (freshId msgId : String) (now : Nat) :
    Option (Store × String) :=
  let r := getOrCreateSession st session_id freshId now
  (add_message r.1 r.2 "user" message none none none now msgId).map
    (fun p => (p.1, r.2))

/-- Apostrophe character, for source strings that contain one. -/
def apos : String := String.mk [Char.ofNat 39]

/-- The assistant acknowledgment text of the CSV upload endpoint. -/
def csvAckText (filename text_summary : String) : String :=
  "I" ++ apos ++ "ve loaded the CSV file **" ++ filename ++ "**.\n\n" ++
    text_summary ++ "\n\nYou can now ask me questions like:\n- \"Summarize the dataset\"\n- \"Show stats for [column name]\"\n- \"Which column has the most missing values?\"\n- \"Plot a histogram of [numeric column]\""

/-- Store-write slice of the `/api/csv/upload` endpoint: parse, get-or-create
the session, store the CSV context, and append the marker and
acknowledgment messages; returns the store and the session identifier of
the response. -/
def upload_csv_route (st : Store) (session_id : Option String)
    (content filename : String) (freshId msgId1 msgId2 : String) (now : Nat) :
    Option (Store × String) :=
  let parsed := parse_csv content filename
  let r := getOrCreateSession st session_id freshId now
  let st1 := set_active_csv r.1 r.2 parsed.1 filename parsed.2.text_summary now
  (add_message st1 r.2 "user" ("[Uploaded CSV: " ++ filename ++ "]") none
      (some { filename := filename, rows := parsed.2.row_count
              columns := parsed.2.column_count, url := none }) none now msgId1).bind
    (fun p =>
      (add_message p.1 r.2 "assistant" (csvAckText filename parsed.2.text_summary)
          none none none now msgId2).map
        (fun q => (q.1, r.2)))

/-- Store-write slice of the `/api/image/upload` endpoint: get-or-create the
session, store the image context, and append the marker and analysis
messages; `analysis` is the text the vision call returned. -/
def upload_image_route (st : Store) (session_id : Option String)
    (base64_image filename content_type analysis : String)
    (freshId msgId1 msgId2 : String) (now : Nat) :
    Option (Store × String) :=
  let image_data_url := "data:" ++ content_type ++ ";base64," ++ base64_image
  let r := getOrCreateSession st session_id freshId now
  let st1 := set_active_image r.1 r.2 base64_image filename now
  (add_message st1 r.2 "user" ("[Uploaded image: " ++ filename ++ "]")
      (some image_data_url) none none now msgId1).bind
    (fun p =>
      (add_message p.1 r.2 "assistant" analysis none none none now msgId2).map
        (fun q => (q.1, r.2)))

/-- Witness input for C7: a single-column CSV with 1001 data rows. -/
def repeatedRowChars : Nat → List Char
  | 0 => []
  | n + 1 => '1' :: '\n' :: repeatedRowChars n

/-- The C7 witness content string (header plus 1001 rows). -/
def bigCsvContent : String := "a\n" ++ String.mk (repeatedRowChars 1001)

/-- C9 counterexample store: one conversation created at tick 0. -/
def c9Store : Store := (create_conversation [] "conv9" 0).1

/-- A minimal CSV payload for the C4 witness. -/
def c4Data : CsvData :=
  { filename := "t.csv", columns := [], row_count := 0, displayed_rows := 0
    truncated := false, numeric_columns := [], text_columns := []
    datetime_columns := [], dtypes := [], sample_rows := [], numeric_stats := []
    missing_values := [] }

/-- The C4 witness store: one conversation, then a CSV context replace. -/
def c4Store : Store :=
  set_active_csv (create_conversation [] "conv4" 0).1 "conv4" c4Data "t.csv" "s" 1

/-- The conversation record reached in the C4 witness store. -/
def c4Conv : Conversation :=
  { id := "conv4", created_at := 0, updated_at := 1, title := none
    has_active_image := false, image_filename := none, has_active_csv := true
    csv_filename := some "t.csv", csv_summary := some "s", messages := []
    image_context := none
    csv_context := some
      { filename := "t.csv", row_count := 0, column_count := 0, columns := []
        numeric_columns := [], text_columns := []
        csv_data := { sample_rows := [], numeric_stats := [], missing_values := []
                      dtypes := [] }
        summary_text := "s", uploaded_at := 1 } }

/-- One `add_message` call of an append sequence. -/
structure AppendOp where
  role : String
  content : String
  image_url : Option String
  csv_info : Option CsvMsgInfo
  chart_data : Option String
  now : Nat
  msgId : String
deriving DecidableEq, Repr

/-- The title-setting guard of `add_message` that depends on the message
alone: a user message whose content does not begin with `[`. -/
def qualifying (op : AppendOp) : Bool :=
  op.role == "user" && !(beginsWith "[".data op.content.data)

/-- Run a sequence of `add_message` calls against one conversation. -/
def runAppends (st : Store) (cid : String) : List AppendOp → Option Store
  | [] => some st
  | op :: ops =>
    match add_message st cid op.role op.content op.image_url op.csv_info
        op.chart_data op.now op.msgId with
    | none => none
    | some (st2, _) => runAppends st2 cid ops

/-- The stored title of the given conversation, through the optional store. -/
def titleOf (ost : Option Store) (cid : String) : Option (Option String) :=
  ost.bind (fun st => (findConv st cid).map (fun c => c.title))

/-- C8 counterexample setup: a fresh conversation. -/
def c8Store : Store := (create_conversation [] "conv8" 0).1

/-- First append of the C8 counterexample: an empty user message. -/
def c8op1 : AppendOp :=
  { role := "user", content := "", image_url := none, csv_info := none
    chart_data := none, now := 1, msgId := "m1" }

/-- Second append of the C8 counterexample. -/
def c8op2 : AppendOp :=
  { role := "user", content := "hello", image_url := none, csv_info := none
    chart_data := none, now := 2, msgId := "m2" }

/-! ## Helper lemmas -/

/-- The number of parsed data rows is the number of non-blank lines after
the header. -/
theorem parseGrid_length (content : String) :
    (parseGrid content).2.length = dataRowCount content := by
  unfold parseGrid dataRowCount
  cases hs : splitLines content with
  | nil => simp
  | cons h rest => simp

/-- A cell of a sample row is never NaN and never the null marker. -/
theorem cleanFill_ne (b : Bool) (c : Option String) :
    cleanVal (fillCell b c) ≠ JsonVal.nan ∧ cleanVal (fillCell b c) ≠ JsonVal.null := by
  unfold fillCell cleanVal
  cases c with
  | none => simp
  | some s =>
    cases b <;> simp
    cases parseNumCell s.data <;> simp

/-! ## C2 — sample-row null handling -/

/-- C2 counterexample input: the raw cell of row 1, column `b`, in
`"a,b\n1,x\n2,\n3,z"` is missing, and the corresponding sample cell is the
empty string, not the null marker: `fillna("")` turns every NaN into `""`
and the later NaN-to-`None` cleanup finds nothing left to convert. -/
theorem claim2_counterexample :
    ((parseGrid "a,b\n1,x\n2,\n3,z").2.getD 1 []).getD 1 (some "?") = none ∧
    (((parse_csv "a,b\n1,x\n2,\n3,z" "data.csv").1.sample_rows.getD 1 []).getD 1
        ("?", JsonVal.null)) = ("b", JsonVal.str "") ∧
    JsonVal.str "" ≠ JsonVal.null ∧ JsonVal.str "" ≠ JsonVal.nan := by
  decide

/-- C2 (amended): in the sample rows returned by `parse_csv`, every null
cell is rendered as the empty string (in numeric and text columns alike),
and no cell is left as NaN — but none is the explicit null marker either:
the `fillna("")` step replaces nulls by `""` before the NaN-to-`None`
cleanup runs, so the cleanup is vacuous. -/
theorem claim2_sample_null_cells :
    (∀ b : Bool, cleanVal (fillCell b none) = JsonVal.str "") ∧
    (∀ content filename row kv, row ∈ (parse_csv content filename).1.sample_rows →
      kv ∈ row → kv.2 ≠ JsonVal.nan ∧ kv.2 ≠ JsonVal.null) := by
  constructor
  · intro b; cases b <;> rfl
  · intro content filename row kv hrow hkv
    simp only [parse_csv, sampleRowsOf, List.mem_map] at hrow
    obtain ⟨r, _, hr⟩ := hrow
    subst hr
    simp only [sampleRowOf, List.mem_map] at hkv
    obtain ⟨j, _, hj⟩ := hkv
    subst hj
    exact cleanFill_ne _ _

/-- Witness for C2: a null cell of a numeric column renders as `""`, and a
concrete sample cell is neither NaN nor null. -/
theorem claim2_witness :
    cleanVal (fillCell true none) = JsonVal.str "" ∧
    (("a", JsonVal.num ⟨1, 1⟩) : String × JsonVal).2 ≠ JsonVal.nan := by
  refine ⟨claim2_sample_null_cells.1 true, ?_⟩
  exact (claim2_sample_null_cells.2 "a\n1" "f.csv" [("a", JsonVal.num ⟨1, 1⟩)]
    ("a", JsonVal.num ⟨1, 1⟩) (by decide) (by decide)).1

/-! ## C3 — concrete statistics scenario -/

/-- C3: parsing `"a,b\n1,x\n2,\n3,z"` yields for the numeric column `a` the
statistics mean 2.00, median 2.00, min 1.00, max 3.00, std 1.00 (stored as
two-decimal values, `cent n` being `n/100`), count 3, missing 0; column
`b` has 1 missing value, and the most-missing scan reports column `b`
with count 1. -/
theorem claim3_scenario :
    (parse_csv "a,b\n1,x\n2,\n3,z" "data.csv").2.numeric_stats =
      [("a", { mean := cent 200, median := cent 200, min := cent 100,
               max := cent 300, std := cent 100, count := 3, missing := 0 })] ∧
    (parse_csv "a,b\n1,x\n2,\n3,z" "data.csv").2.missing_values =
      [("a", 0), ("b", 1)] ∧
    (parse_csv "a,b\n1,x\n2,\n3,z" "data.csv").2.most_missing_column = some "b" ∧
    (parse_csv "a,b\n1,x\n2,\n3,z" "data.csv").2.most_missing_count = 1 := by
  decide

/-! ## C7 — row-count cap -/

/-- C7: when the input has more data rows than the 1000-row context cap,
the returned `row_count` is the untruncated total, `displayed_rows` is the
cap, `truncated` is set, and the numeric statistics and sample rows are
computed from the working copy truncated to the first 1000 rows. -/
theorem claim7_truncation (content filename : String)
    (h : dataRowCount content > MAX_ROWS_CONTEXT) :
    (parse_csv content filename).1.row_count = dataRowCount content ∧
    (parse_csv content filename).2.row_count = dataRowCount content ∧
    (parse_csv content filename).1.displayed_rows = MAX_ROWS_CONTEXT ∧
    (parse_csv content filename).1.truncated = true ∧
    (parse_csv content filename).1.numeric_stats =
      numericStatsOf (parseGrid content).1 ((parseGrid content).2.take MAX_ROWS_CONTEXT) ∧
    (parse_csv content filename).1.sample_rows =
      sampleRowsOf (parseGrid content).1 ((parseGrid content).2.take MAX_ROWS_CONTEXT) := by
  have hlen : (parseGrid content).2.length = dataRowCount content := parseGrid_length content
  have hgt : (parseGrid content).2.length > MAX_ROWS_CONTEXT := by rw [hlen]; exact h
  have hwork : workingRows content = (parseGrid content).2.take MAX_ROWS_CONTEXT := by
    unfold workingRows
    rw [if_pos hgt]
  refine ⟨hlen, hlen, ?_, ?_, ?_, ?_⟩
  · show (workingRows content).length = MAX_ROWS_CONTEXT
    rw [hwork, List.length_take]
    omega
  · show decide ((parseGrid content).2.length > MAX_ROWS_CONTEXT) = true
    exact decide_eq_true hgt
  · show numericStatsOf (parseGrid content).1 (workingRows content) = _
    rw [hwork]
  · show sampleRowsOf (parseGrid content).1 (workingRows content) = _
    rw [hwork]

/-- Witness for C7 at the 1001-row input. -/
theorem claim7_witness :
    dataRowCount bigCsvContent > MAX_ROWS_CONTEXT ∧
    (parse_csv bigCsvContent "big.csv").1.row_count = dataRowCount bigCsvContent := by
  exact ⟨by decide, (claim7_truncation bigCsvContent "big.csv" (by decide)).1⟩

/-! ## C5 — terminal error element when both calls fail -/

/-- C5: whenever the primary call fails (with exception text `e`) and the
fallback call also fails, the produced chunk sequence is nonempty and its
final element is the literal user-facing apology message carrying `e`;
the orchestrator is a total function of the call outcomes, so no
exception reaches the consumer. -/
theorem claim5_terminal_error (sp msg : String) (history : List (String × String))
    (ib : Option String) (p f : CallResult) (e : String)
    (hp : p.error = some e) (hf : f.error.isSome = true) :
    (generate_response_stream sp msg history ib p f).output ≠ [] ∧
    (generate_response_stream sp msg history ib p f).output.getLast? =
      some (apologyMsg e) := by
  obtain ⟨e2, hf2⟩ := Option.isSome_iff_exists.mp hf
  simp only [generate_response_stream, hp, hf2]
  constructor
  · simp
  · rw [List.getLast?_append, List.getLast?_append]
    simp

/-- Witness for C5: both calls fail concretely; the final element is the
apology message carrying the primary exception text. -/
theorem claim5_witness :
    (generate_response_stream "" "hi" [] none
        { chunks := ["x"], error := some "boom" }
        { chunks := [], error := some "bust" }).output.getLast? =
      some (apologyMsg "boom") :=
  (claim5_terminal_error "" "hi" [] none
    { chunks := ["x"], error := some "boom" }
    { chunks := [], error := some "bust" } "boom" rfl rfl).2

/-! ## C6 — image-free fallback payload -/

/-- Every rebuilt fallback entry carries plain text content. -/
theorem toFallbackMsg_text (cm : ChatMsg) :
    ∃ s, (toFallbackMsg cm).content = MsgContent.text s := by
  obtain ⟨r, ct⟩ := cm
  cases ct with
  | text s => exact ⟨s, rfl⟩
  | textAndImage t u => exact ⟨imagePlaceholder ++ "\n" ++ t, rfl⟩

/-- The current user message of an image-bearing turn is the
text-plus-image pair. -/
theorem currentUserMsg_image (msg img : String) (himg : img ≠ "") :
    currentUserMsg msg (some img) =
      { role := "user"
        content := MsgContent.textAndImage msg ("data:image/jpeg;base64," ++ img) } := by
  simp [currentUserMsg, imageTruthy, supports_vision, himg]

/-- C6: when the primary call of an image-bearing turn fails, the second
call issued is against the fallback model with the rebuilt payload, in
which every entry is plain text (so the raw image payload appears in no
entry) and the image-bearing user turn has become the explanatory
placeholder text followed by the message text. -/
theorem claim6_fallback_payload (sp msg : String) (history : List (String × String))
    (img : String) (p f : CallResult) (e : String)
    (hp : p.error = some e) (himg : img ≠ "") :
    (generate_response_stream sp msg history (some img) p f).calls =
      [(vision_model, buildMessages sp msg history (some img)),
       (fallback_model, fallbackMessagesOf (buildMessages sp msg history (some img)))] ∧
    (∀ cm ∈ fallbackMessagesOf (buildMessages sp msg history (some img)),
       ∃ s, cm.content = MsgContent.text s) ∧
    ({ role := "user", content := MsgContent.text (imagePlaceholder ++ "\n" ++ msg) } : ChatMsg) ∈
      fallbackMessagesOf (buildMessages sp msg history (some img)) := by
  have hmodel : modelToUse (some img) = vision_model := by
    simp [modelToUse, imageTruthy, supports_vision, himg]
  refine ⟨?_, ?_, ?_⟩
  · cases hf : f.error with
    | none => simp only [generate_response_stream, hp, hf, hmodel]
    | some e2 => simp only [generate_response_stream, hp, hf, hmodel]
  · intro cm hcm
    simp only [fallbackMessagesOf, List.mem_map] at hcm
    obtain ⟨x, _, hx⟩ := hcm
    subst hx
    exact toFallbackMsg_text x
  · have hcur : currentUserMsg msg (some img) ∈ buildMessages sp msg history (some img) := by
      simp [buildMessages]
    have := List.mem_map_of_mem toFallbackMsg hcur
    rw [currentUserMsg_image msg img himg] at this
    exact this

/-- Witness for C6 at a concrete image-bearing failed turn. -/
theorem claim6_witness :
    (generate_response_stream "" "hi" [] (some "IMG")
        { chunks := [], error := some "err" } { chunks := [], error := none }).calls =
      [(vision_model, buildMessages "" "hi" [] (some "IMG")),
       (fallback_model, fallbackMessagesOf (buildMessages "" "hi" [] (some "IMG")))] :=
  (claim6_fallback_payload "" "hi" [] "IMG"
    { chunks := [], error := some "err" } { chunks := [], error := none } "err"
    rfl (by decide)).1

/-! ## C1 — internal-marker exclusion -/

/-- C1 counterexample: the stored user message `"[x"` begins with `[`, yet
the prompt-assembly filter keeps it — the assembled payload sent to the
model contains it, because the filter only drops the prefixes
`[Uploaded` and `[Loaded`. -/
theorem claim1_counterexample :
    beginsWith "[".data "[x".data = true ∧
    ({ role := "user", content := MsgContent.text "[x" } : ChatMsg) ∈
      buildMessages "" "hi" [("user", "[x")] none := by
  decide

/-- C1 (amended): appending a message whose content begins with `[` never
changes the stored title, and the history portion of the assembled prompt
contains exactly the entries of the last 15 stored messages whose content
does not begin with `[Uploaded` or `[Loaded` — a message beginning with
`[` but with neither of those two prefixes is still sent to the model. -/
theorem claim1_marker_exclusion :
    (∀ (role content : String) (image_url : Option String)
       (csv_info : Option CsvMsgInfo) (chart_data : Option String)
       (now : Nat) (msgId : String) (c : Conversation),
       beginsWith "[".data content.data = true →
       (msgApplied role content image_url csv_info chart_data now msgId c).title
         = c.title) ∧
    (∀ (history : List (String × String)) (r c : String),
       ({ role := r, content := MsgContent.text c } : ChatMsg) ∈ historyForPrompt history ↔
         ((r, c) ∈ lastN 15 history ∧ isDroppedFromHistory c = false)) := by
  constructor
  · intro role content image_url csv_info chart_data now msgId c hb
    simp [msgApplied, hb]
  · intro history r c
    simp only [historyForPrompt, List.mem_map, List.mem_filter]
    constructor
    · rintro ⟨rc, ⟨hmem, hdrop⟩, heq⟩
      have hr : rc.1 = r := congrArg ChatMsg.role heq
      have hc : MsgContent.text rc.2 = MsgContent.text c := congrArg ChatMsg.content heq
      have hc2 : rc.2 = c := by injection hc
      constructor
      · rw [← hr, ← hc2]
        exact hmem
      · rw [← hc2]
        simpa using hdrop
    · rintro ⟨hmem, hdrop⟩
      exact ⟨(r, c), ⟨hmem, by simpa using hdrop⟩, rfl⟩

/-- Witness for C1: a `[`-prefixed message leaves a concrete title
unchanged, and a concrete non-marker entry is in the assembled history. -/
theorem claim1_witness :
    (msgApplied "user" "[Uploaded CSV: x]" none none none 3 "m"
        (create_conversation [] "c" 0).2).title = none ∧
    (({ role := "user", content := MsgContent.text "ok" } : ChatMsg) ∈
      historyForPrompt [("user", "ok")]) := by
  constructor
  · exact claim1_marker_exclusion.1 "user" "[Uploaded CSV: x]" none none none 3 "m"
      (create_conversation [] "c" 0).2 (by decide)
  · exact (claim1_marker_exclusion.2 [("user", "ok")] "user" "ok").mpr
      ⟨by decide, by decide⟩

/-! ## C9 — clearing context -/

/-- Lookup commutes with mapping an id-preserving function over the store. -/
theorem findConv_map (g : Conversation → Conversation)
    (hg : ∀ c, (g c).id = c.id) (st : Store) (x : String) :
    findConv (st.map g) x = (findConv st x).map g := by
  induction st with
  | nil => rfl
  | cons c cs ih =>
    simp only [List.map_cons, findConv, List.find?] at ih ⊢
    rw [hg c]
    cases hc : (c.id == x) with
    | true => rfl
    | false => exact ih

/-- Lookup after a targeted update of an id-preserving function. -/
theorem findConv_updateConv (st : Store) (cid x : String)
    (f : Conversation → Conversation) (hf : ∀ c, (f c).id = c.id) :
    findConv (updateConv st cid f) x =
      (findConv st x).map (fun c => if c.id == cid then f c else c) := by
  unfold updateConv
  apply findConv_map
  intro c
  by_cases h : c.id = cid <;> simp [h, hf]

/-- A found conversation carries the looked-up id. -/
theorem findConv_id (st : Store) (cid : String) (c : Conversation)
    (h : findConv st cid = some c) : c.id = cid := by
  have := List.find?_some h
  simpa using this

/-- C9 counterexample: a second `clear_all_context` at a later clock tick
does not leave the same resulting state — the conversation's
`updated_at` timestamp is refreshed by every call (observably: the
sidebar ordering sorts by `updated_at`). -/
theorem claim9_counterexample :
    clear_all_context (clear_all_context c9Store "conv9" 1) "conv9" 2 ≠
      clear_all_context c9Store "conv9" 1 := by
  decide

/-- C9 (amended): after `clear_all_context` both the active image and the
active tabular context read back as absent; repeated clears raise no
error (they are total store transformers) and change nothing except
refreshing the `updated_at` timestamp — a second clear at tick `t2`
yields exactly the state of a single clear at `t2`, so clearing twice
with the same tick is literally idempotent, and the same absorption holds
for `clear_image_context` and `clear_csv_context` on already-empty
slots. -/
theorem claim9_clear_behaviour :
    (∀ (st : Store) (cid : String) (now : Nat),
       get_active_image (clear_all_context st cid now) cid = none ∧
       get_active_csv (clear_all_context st cid now) cid = none) ∧
    (∀ (st : Store) (cid : String) (t1 t2 : Nat),
       clear_all_context (clear_all_context st cid t1) cid t2 =
         clear_all_context st cid t2) ∧
    (∀ (st : Store) (cid : String) (t1 t2 : Nat),
       clear_image_context (clear_image_context st cid t1) cid t2 =
         clear_image_context st cid t2) ∧
    (∀ (st : Store) (cid : String) (t1 t2 : Nat),
       clear_csv_context (clear_csv_context st cid t1) cid t2 =
         clear_csv_context st cid t2) := by
  refine ⟨?_, ?_, ?_, ?_⟩
  · intro st cid now
    have h2 := findConv_updateConv st cid cid
      (fun c => { c with
        image_context := none
        has_active_image := false
        image_filename := none
        updated_at := now }) (fun c => rfl)
    have h1 := findConv_updateConv
      (updateConv st cid (fun c => { c with
        image_context := none
        has_active_image := false
        image_filename := none
        updated_at := now })) cid cid
      (fun c => { c with
        csv_context := none
        has_active_csv := false
        csv_filename := none
        csv_summary := none
        updated_at := now }) (fun c => rfl)
    unfold clear_all_context clear_csv_context clear_image_context
      get_active_image get_active_csv
    rw [h1, h2]
    cases hc : findConv st cid with
    | none => simp
    | some c =>
      have hid : c.id = cid := findConv_id st cid c hc
      simp [hid]
  · intro st cid t1 t2
    unfold clear_all_context clear_csv_context clear_image_context updateConv
    simp only [List.map_map]
    apply List.map_congr_left
    intro c _
    by_cases h : c.id = cid <;> simp [h]
  · intro st cid t1 t2
    unfold clear_image_context updateConv
    simp only [List.map_map]
    apply List.map_congr_left
    intro c _
    by_cases h : c.id = cid <;> simp [h]
  · intro st cid t1 t2
    unfold clear_csv_context updateConv
    simp only [List.map_map]
    apply List.map_congr_left
    intro c _
    by_cases h : c.id = cid <;> simp [h]

/-! ## C4 — flag/data invariant for the tabular context -/

/-- A targeted update preserves a per-conversation property that the update
function preserves. -/
theorem forall_mem_updateConv {P : Conversation → Prop} (st : Store) (cid : String)
    (f : Conversation → Conversation) (h : ∀ c ∈ st, P c)
    (hf : ∀ c, P c → P (f c)) :
    ∀ c ∈ updateConv st cid f, P c := by
  intro c hc
  unfold updateConv at hc
  obtain ⟨a, ha, rfl⟩ := List.mem_map.mp hc
  by_cases hid : a.id = cid
  · simp only [hid, beq_self_eq_true, if_true]
    exact hf a (h a ha)
  · simp only [beq_iff_eq, hid, if_false]
    exact h a ha

/-- C4: in every store reachable by repository operations — creation,
message appends, image and CSV context replacement (including a failed,
rolled-back replace) and clears, deletion — every conversation has its
`has_active_csv` flag set exactly when a CSV context record (with its
data) is stored for it. -/
theorem claim4_csv_flag_invariant (st : Store) (h : Reachable st) :
    ∀ c ∈ st, (c.has_active_csv = true ↔ c.csv_context.isSome = true) := by
  induction h with
  | init =>
    intro c hc
    cases hc
  | step st st' hreach hstep ih =>
    cases hstep with
    | create newId now hfresh =>
      intro c hc
      unfold create_conversation at hc
      simp only at hc
      rcases List.mem_append.mp hc with h1 | h1
      · exact ih c h1
      · rcases List.mem_singleton.mp h1 with rfl
        simp
    | message st3 cid role content image_url csv_info chart_data now msgId m hadd =>
      unfold add_message at hadd
      cases hfind : findConv st cid with
      | none => rw [hfind] at hadd; cases hadd
      | some conv =>
        rw [hfind] at hadd
        injection hadd with hpair
        have hst : st' = updateConv st cid
            (msgApplied role content image_url csv_info chart_data now msgId) :=
          (congrArg Prod.fst hpair).symm
        subst hst
        exact forall_mem_updateConv st cid _ ih (fun c hP => by simpa [msgApplied] using hP)
    | setImage cid image_base64 filename now =>
      unfold set_active_image
      cases hfind : findConv st cid with
      | none => simp only [hfind]; exact ih
      | some conv =>
        simp only [hfind]
        exact forall_mem_updateConv st cid _ ih
          (fun c hP => by simpa [imageCtxUpdate] using hP)
    | clearImage cid now =>
      unfold clear_image_context
      exact forall_mem_updateConv st cid _ ih (fun c hP => by simpa using hP)
    | setCsv cid csv_data filename summary now =>
      unfold set_active_csv
      cases hfind : findConv st cid with
      | none => simp only [hfind]; exact ih
      | some conv =>
        simp only [hfind]
        exact forall_mem_updateConv st cid _ ih (fun c _ => by simp [csvCtxUpdate])
    | setCsvRolledBack => exact ih
    | clearCsv cid now =>
      unfold clear_csv_context
      exact forall_mem_updateConv st cid _ ih (fun c _ => by simp)
    | clearAll cid now =>
      unfold clear_all_context clear_csv_context
      have hinner : ∀ c ∈ clear_image_context st cid now,
          (c.has_active_csv = true ↔ c.csv_context.isSome = true) := by
        unfold clear_image_context
        exact forall_mem_updateConv st cid _ ih (fun c hP => by simpa using hP)
      exact forall_mem_updateConv (clear_image_context st cid now) cid _ hinner
        (fun c _ => by simp)
    | deleteConv cid =>
      intro c hc
      unfold delete_conversation at hc
      exact ih c (List.mem_of_mem_filter hc)

/-- Witness for C4: the invariant holds of the conversation reached after a
create followed by a context replace. -/
theorem claim4_witness :
    c4Conv.has_active_csv = true ↔ c4Conv.csv_context.isSome = true :=
  claim4_csv_flag_invariant c4Store
    (Reachable.step (create_conversation [] "conv4" 0).1 c4Store
      (Reachable.step [] (create_conversation [] "conv4" 0).1 Reachable.init
        (Step.create [] "conv4" 0 rfl))
      (Step.setCsv (create_conversation [] "conv4" 0).1 "conv4" c4Data "t.csv" "s" 1))
    c4Conv (by decide)

/-! ## C8 — title derivation over append sequences -/

/-- Effect of one append on the found conversation, at store level. -/
theorem add_message_found (st : Store) (cid : String) (c : Conversation)
    (role content : String) (image_url : Option String)
    (csv_info : Option CsvMsgInfo) (chart_data : Option String) (now : Nat)
    (msgId : String) (hfind : findConv st cid = some c) :
    add_message st cid role content image_url csv_info chart_data now msgId =
      some (updateConv st cid
              (msgApplied role content image_url csv_info chart_data now msgId),
            mkMessageRec msgId role content image_url csv_info chart_data now) := by
  unfold add_message
  rw [hfind]

/-- After an append, the conversation looked up again is the appended one. -/
theorem findConv_after_append (st : Store) (cid : String) (c : Conversation)
    (role content : String) (image_url : Option String)
    (csv_info : Option CsvMsgInfo) (chart_data : Option String) (now : Nat)
    (msgId : String) (hfind : findConv st cid = some c) :
    findConv (updateConv st cid
        (msgApplied role content image_url csv_info chart_data now msgId)) cid =
      some (msgApplied role content image_url csv_info chart_data now msgId c) := by
  rw [findConv_updateConv st cid cid
    (msgApplied role content image_url csv_info chart_data now msgId) (fun c => rfl),
    hfind]
  have hid : c.id = cid := findConv_id st cid c hfind
  simp [hid]

/-- A non-falsy title is never changed by later appends. -/
theorem title_stable (cid : String) (ops : List AppendOp) :
    ∀ (st : Store) (c : Conversation), findConv st cid = some c →
      titleFalsy c.title = false →
      titleOf (runAppends st cid ops) cid = some c.title := by
  induction ops with
  | nil =>
    intro st c h hf
    simp [runAppends, titleOf, h]
  | cons op ops ih =>
    intro st c h hf
    simp only [runAppends, add_message_found st cid c op.role op.content
      op.image_url op.csv_info op.chart_data op.now op.msgId h]
    have hnext := findConv_after_append st cid c op.role op.content op.image_url
      op.csv_info op.chart_data op.now op.msgId h
    have htitle : (msgApplied op.role op.content op.image_url op.csv_info
        op.chart_data op.now op.msgId c).title = c.title := by
      simp [msgApplied, hf]
    rw [ih _ _ hnext (by rw [htitle]; exact hf), htitle]

/-- C8 counterexample: the empty user message qualifies (it does not begin
with `[`) and sets the title to `""`, but Python treats the empty title as
unset, so the next user message overwrites it — the title is not "never
overwritten by any later message". -/
theorem claim8_counterexample :
    beginsWith "[".data "".data = false ∧
    titleOf (runAppends c8Store "conv8" [c8op1]) "conv8" = some (some "") ∧
    titleOf (runAppends c8Store "conv8" [c8op1, c8op2]) "conv8" =
      some (some "hello") ∧
    (some "hello" : Option String) ≠ some (strTake 100 "") := by
  decide

/-- C8 (amended): over any append sequence in which every qualifying user
message (not beginning with `[`) has non-empty content, the title of an
initially untitled conversation ends up exactly the first 100 characters
of the first qualifying message (and stays unset when there is none):
it is set exactly when that message arrives and never overwritten after.
(When a qualifying message is empty, the code sets the title to `""`,
which it treats as unset — the counterexample — so the non-empty proviso
is what the code forces.) -/
theorem claim8_title_first_qualifying (cid : String) (ops : List AppendOp) :
    ∀ (st : Store) (c : Conversation), findConv st cid = some c →
      c.title = none →
      (∀ op ∈ ops, qualifying op = true → op.content ≠ "") →
      titleOf (runAppends st cid ops) cid =
        some ((ops.find? qualifying).map (fun op => strTake 100 op.content)) := by
  induction ops with
  | nil =>
    intro st c h ht _
    simp [runAppends, titleOf, h, ht]
  | cons op ops ih =>
    intro st c h ht hne
    simp only [runAppends, add_message_found st cid c op.role op.content
      op.image_url op.csv_info op.chart_data op.now op.msgId h]
    have hnext := findConv_after_append st cid c op.role op.content op.image_url
      op.csv_info op.chart_data op.now op.msgId h
    cases hq : qualifying op with
    | true =>
      have hcond : (titleFalsy c.title && (op.role == "user") &&
          !(beginsWith "[".data op.content.data)) = true := by
        rw [ht]
        unfold qualifying at hq
        simp only [titleFalsy, Bool.true_and]
        exact hq
      have htitle : (msgApplied op.role op.content op.image_url op.csv_info
          op.chart_data op.now op.msgId c).title = some (strTake 100 op.content) := by
        simp [msgApplied, hcond]
      have hne1 : op.content ≠ "" := hne op (List.mem_cons_self op ops) hq
      have htake : strTake 100 op.content ≠ "" := by
        unfold strTake
        cases hc : op.content.data with
        | nil =>
          exfalso
          apply hne1
          cases hop : op.content with
          | mk l => rw [hop] at hc; simp at hc; rw [hc]
        | cons a t =>
          rw [show (100 : Nat) = 99 + 1 from rfl, List.take_succ_cons]
          simp [String.ext_iff]
      have hfalsy : titleFalsy (msgApplied op.role op.content op.image_url
          op.csv_info op.chart_data op.now op.msgId c).title = false := by
        rw [htitle]
        simpa [titleFalsy] using htake
      rw [title_stable cid ops _ _ hnext hfalsy, htitle]
      simp [List.find?, hq]
    | false =>
      have hcond : (titleFalsy c.title && (op.role == "user") &&
          !(beginsWith "[".data op.content.data)) = false := by
        rw [ht]
        unfold qualifying at hq
        simp only [titleFalsy, Bool.true_and]
        exact hq
      have htitle : (msgApplied op.role op.content op.image_url op.csv_info
          op.chart_data op.now op.msgId c).title = c.title := by
        simp [msgApplied, hcond]
      rw [ih _ _ hnext (by rw [htitle]; exact ht)
        (fun o ho hqo => hne o (List.mem_cons_of_mem op ho) hqo)]
      simp [List.find?, hq]

/-- Witness for C8: a single non-empty qualifying append sets the title to
its first 100 characters. -/
theorem claim8_witness :
    titleOf (runAppends c8Store "conv8" [c8op2]) "conv8" =
      some ((([c8op2]).find? qualifying).map (fun op => strTake 100 op.content)) :=
  claim8_title_first_qualifying "conv8" [c8op2] c8Store
    (create_conversation [] "conv8" 0).2 (by decide) rfl (by decide)

/-! ## C10 — get-or-create on an unknown session identifier -/

/-- A targeted update cannot make a missing conversation appear. -/
theorem findConv_updateConv_none (st : Store) (cid x : String)
    (f : Conversation → Conversation) (hf : ∀ c, (f c).id = c.id)
    (h : findConv st x = none) : findConv (updateConv st cid f) x = none := by
  rw [findConv_updateConv st cid x f hf, h]
  rfl

/-- A targeted update applies the function to the found conversation. -/
theorem findConv_updateConv_found (st : Store) (cid : String) (c : Conversation)
    (f : Conversation → Conversation) (hf : ∀ a, (f a).id = a.id)
    (h : findConv st cid = some c) :
    findConv (updateConv st cid f) cid = some (f c) := by
  rw [findConv_updateConv st cid cid f hf, h]
  have hid : c.id = cid := findConv_id st cid c h
  simp [hid]

/-- Lookup in a store extended on the right, when absent on the left. -/
theorem findConv_append_of_none (st : Store) (c0 : Conversation) (x : String)
    (h : findConv st x = none) :
    findConv (st ++ [c0]) x = if c0.id == x then some c0 else none := by
  induction st with
  | nil =>
    cases hc : (c0.id == x) <;> simp [findConv, List.find?, hc]
  | cons c cs ih =>
    unfold findConv at h ih ⊢
    simp only [List.cons_append, List.find?] at h ⊢
    cases hc : (c.id == x) with
    | true => rw [hc] at h; cases h
    | false =>
      rw [hc] at h
      exact ih h

/-- Effect of `set_active_csv` on a found conversation. -/
theorem set_active_csv_found (st : Store) (cid : String) (c : Conversation)
    (csv_data : CsvData) (filename summary : String) (now : Nat)
    (h : findConv st cid = some c) :
    set_active_csv st cid csv_data filename summary now =
      updateConv st cid (csvCtxUpdate csv_data filename summary now) := by
  unfold set_active_csv
  rw [h]

/-- Effect of `set_active_image` on a found conversation. -/
theorem set_active_image_found (st : Store) (cid : String) (c : Conversation)
    (image_base64 filename : String) (now : Nat)
    (h : findConv st cid = some c) :
    set_active_image st cid image_base64 filename now =
      updateConv st cid (imageCtxUpdate image_base64 filename now) := by
  unfold set_active_image
  rw [h]

/-- The get-or-create block on a missing, non-empty supplied identifier
creates a fresh conversation and returns the generated identifier. -/
theorem getOrCreateSession_missing (st : Store) (s freshId : String) (now : Nat)
    (hs : findConv st s = none) (hsne : s ≠ "") :
    getOrCreateSession st (some s) freshId now =
      (st ++ [(create_conversation st freshId now).2], freshId) := by
  have hsbeq : (s == "") = false := by simp [hsne]
  unfold getOrCreateSession
  simp only [hsbeq, hs, Bool.false_eq_true, if_false]
  rfl

/-- C10: when a chat-stream, CSV-upload, or image-upload request supplies a
session identifier that is not in the store (and not empty), the shared
get-or-create block does not fail with not-found: it creates a fresh
conversation under the newly generated identifier, never adopts the
supplied identifier (no conversation with it exists afterwards), and the
returned/announced identifier and every subsequent write use the new one
(the user message lands in the fresh conversation; the CSV/image context
flags are set on the fresh conversation). -/
theorem claim10_fresh_session (st : Store)
    (s freshId message content filename base64_image content_type analysis
      msgId m1 m2 : String) (now : Nat)
    (hs : findConv st s = none) (hsne : s ≠ "")
    (hfresh : findConv st freshId = none) (hneq : freshId ≠ s) :
    ((getOrCreateSession st (some s) freshId now).2 = freshId ∧
      findConv (getOrCreateSession st (some s) freshId now).1 s = none ∧
      (findConv (getOrCreateSession st (some s) freshId now).1 freshId).isSome = true) ∧
    ((send_message_stream st (some s) message freshId msgId now).isSome = true ∧
      ∀ st2 sid,
        send_message_stream st (some s) message freshId msgId now = some (st2, sid) →
        sid = freshId ∧ findConv st2 s = none ∧
        (findConv st2 freshId).map
            (fun c => c.messages.map (fun mr => (mr.role, mr.content))) =
          some [("user", message)]) ∧
    ((upload_csv_route st (some s) content filename freshId m1 m2 now).isSome = true ∧
      ∀ st2 sid,
        upload_csv_route st (some s) content filename freshId m1 m2 now = some (st2, sid) →
        sid = freshId ∧ findConv st2 s = none ∧
        (findConv st2 freshId).map (fun c => c.has_active_csv) = some true) ∧
    ((upload_image_route st (some s) base64_image filename content_type analysis
        freshId m1 m2 now).isSome = true ∧
      ∀ st2 sid,
        upload_image_route st (some s) base64_image filename content_type analysis
            freshId m1 m2 now = some (st2, sid) →
        sid = freshId ∧ findConv st2 s = none ∧
        (findConv st2 freshId).map (fun c => c.has_active_image) = some true) := by
  have hgo := getOrCreateSession_missing st s freshId now hs hsne
  have hfind0 : findConv (st ++ [(create_conversation st freshId now).2]) freshId =
      some (create_conversation st freshId now).2 := by
    rw [findConv_append_of_none st _ freshId hfresh]
    simp [create_conversation]
  have hfindS : findConv (st ++ [(create_conversation st freshId now).2]) s = none := by
    rw [findConv_append_of_none st _ s hs]
    simp [create_conversation, hneq]
  refine ⟨⟨?_, ?_, ?_⟩, ?_, ?_, ?_⟩
  · rw [hgo]
  · rw [hgo]
    exact hfindS
  · rw [hgo]
    rw [hfind0]
    rfl
  · -- chat endpoint
    have hchat : send_message_stream st (some s) message freshId msgId now =
        some (updateConv (st ++ [(create_conversation st freshId now).2]) freshId
                (msgApplied "user" message none none none now msgId), freshId) := by
      unfold send_message_stream
      simp only [hgo]
      rw [add_message_found _ freshId _ "user" message none none none now msgId hfind0]
      rfl
    refine ⟨by rw [hchat]; rfl, ?_⟩
    intro st2 sid heq
    rw [hchat] at heq
    injection heq with hpair
    have hst2 : st2 = updateConv (st ++ [(create_conversation st freshId now).2]) freshId
        (msgApplied "user" message none none none now msgId) :=
      (congrArg Prod.fst hpair).symm
    have hsid : sid = freshId := (congrArg Prod.snd hpair).symm
    subst hst2
    refine ⟨hsid, ?_, ?_⟩
    · exact findConv_updateConv_none _ freshId s _ (fun c => rfl) hfindS
    · rw [findConv_updateConv_found _ freshId _
        (msgApplied "user" message none none none now msgId) (fun a => rfl) hfind0]
      rfl
  · -- CSV endpoint
    have hroute : upload_csv_route st (some s) content filename freshId m1 m2 now =
        some (updateConv (updateConv (updateConv
                (st ++ [(create_conversation st freshId now).2]) freshId
                (csvCtxUpdate (parse_csv content filename).1 filename
                  (parse_csv content filename).2.text_summary now)) freshId
                (msgApplied "user" ("[Uploaded CSV: " ++ filename ++ "]") none
                  (some { filename := filename, rows := (parse_csv content filename).2.row_count
                          columns := (parse_csv content filename).2.column_count, url := none })
                  none now m1)) freshId
                (msgApplied "assistant"
                  (csvAckText filename (parse_csv content filename).2.text_summary)
                  none none none now m2), freshId) := by
      unfold upload_csv_route
      simp only [hgo]
      rw [set_active_csv_found _ freshId _ (parse_csv content filename).1 filename
        (parse_csv content filename).2.text_summary now hfind0]
      rw [add_message_found _ freshId _ "user" ("[Uploaded CSV: " ++ filename ++ "]") none
        (some { filename := filename, rows := (parse_csv content filename).2.row_count
                columns := (parse_csv content filename).2.column_count, url := none })
        none now m1
        (findConv_updateConv_found _ freshId _
          (csvCtxUpdate (parse_csv content filename).1 filename
            (parse_csv content filename).2.text_summary now) (fun a => rfl) hfind0)]
      simp only [Option.some_bind]
      rw [add_message_found _ freshId _ "assistant"
        (csvAckText filename (parse_csv content filename).2.text_summary) none none none now m2
        (findConv_updateConv_found _ freshId _
          (msgApplied "user" ("[Uploaded CSV: " ++ filename ++ "]") none
            (some { filename := filename, rows := (parse_csv content filename).2.row_count
                    columns := (parse_csv content filename).2.column_count, url := none })
            none now m1) (fun a => rfl)
          (findConv_updateConv_found _ freshId _
            (csvCtxUpdate (parse_csv content filename).1 filename
              (parse_csv content filename).2.text_summary now) (fun a => rfl) hfind0))]
      rfl
    refine ⟨by rw [hroute]; rfl, ?_⟩
    intro st2 sid heq
    rw [hroute] at heq
    injection heq with hpair
    have hst2 := (congrArg Prod.fst hpair).symm
    have hsid : sid = freshId := (congrArg Prod.snd hpair).symm
    subst hst2
    refine ⟨hsid, ?_, ?_⟩
    · exact findConv_updateConv_none _ freshId s _ (fun c => rfl)
        (findConv_updateConv_none _ freshId s _ (fun c => rfl)
          (findConv_updateConv_none _ freshId s _ (fun c => rfl) hfindS))
    · rw [findConv_updateConv_found _ freshId _
        (msgApplied "assistant"
          (csvAckText filename (parse_csv content filename).2.text_summary)
          none none none now m2) (fun a => rfl)
        (findConv_updateConv_found _ freshId _
          (msgApplied "user" ("[Uploaded CSV: " ++ filename ++ "]") none
            (some { filename := filename, rows := (parse_csv content filename).2.row_count
                    columns := (parse_csv content filename).2.column_count, url := none })
            none now m1) (fun a => rfl)
          (findConv_updateConv_found _ freshId _
            (csvCtxUpdate (parse_csv content filename).1 filename
              (parse_csv content filename).2.text_summary now) (fun a => rfl) hfind0))]
      rfl
  · -- image endpoint
    have hroute : upload_image_route st (some s) base64_image filename content_type
        analysis freshId m1 m2 now =
        some (updateConv (updateConv (updateConv
                (st ++ [(create_conversation st freshId now).2]) freshId
                (imageCtxUpdate base64_image filename now)) freshId
                (msgApplied "user" ("[Uploaded image: " ++ filename ++ "]")
                  (some ("data:" ++ content_type ++ ";base64," ++ base64_image))
                  none none now m1)) freshId
                (msgApplied "assistant" analysis none none none now m2), freshId) := by
      unfold upload_image_route
      simp only [hgo]
      rw [set_active_image_found _ freshId _ base64_image filename now hfind0]
      rw [add_message_found _ freshId _ "user" ("[Uploaded image: " ++ filename ++ "]")
        (some ("data:" ++ content_type ++ ";base64," ++ base64_image)) none none now m1
        (findConv_updateConv_found _ freshId _
          (imageCtxUpdate base64_image filename now) (fun a => rfl) hfind0)]
      simp only [Option.some_bind]
      rw [add_message_found _ freshId _ "assistant" analysis none none none now m2
        (findConv_updateConv_found _ freshId _
          (msgApplied "user" ("[Uploaded image: " ++ filename ++ "]")
            (some ("data:" ++ content_type ++ ";base64," ++ base64_image))
            none none now m1) (fun a => rfl)
          (findConv_updateConv_found _ freshId _
            (imageCtxUpdate base64_image filename now) (fun a => rfl) hfind0))]
      rfl
    refine ⟨by rw [hroute]; rfl, ?_⟩
    intro st2 sid heq
    rw [hroute] at heq
    injection heq with hpair
    have hst2 := (congrArg Prod.fst hpair).symm
    have hsid : sid = freshId := (congrArg Prod.snd hpair).symm
    subst hst2
    refine ⟨hsid, ?_, ?_⟩
    · exact findConv_updateConv_none _ freshId s _ (fun c => rfl)
        (findConv_updateConv_none _ freshId s _ (fun c => rfl)
          (findConv_updateConv_none _ freshId s _ (fun c => rfl) hfindS))
    · rw [findConv_updateConv_found _ freshId _
        (msgApplied "assistant" analysis none none none now m2) (fun a => rfl)
        (findConv_updateConv_found _ freshId _
          (msgApplied "user" ("[Uploaded image: " ++ filename ++ "]")
            (some ("data:" ++ content_type ++ ";base64," ++ base64_image))
            none none now m1) (fun a => rfl)
          (findConv_updateConv_found _ freshId _
            (imageCtxUpdate base64_image filename now) (fun a => rfl) hfind0))]
      rfl

/-- Witness for C10: a concrete unknown identifier on the empty store. -/
theorem claim10_witness :
    (getOrCreateSession [] (some "missing") "fresh" 0).2 = "fresh" :=
  (claim10_fresh_session [] "missing" "fresh" "hi" "a\n1" "t.csv" "IMG" "image/png"
    "looks fine" "mid" "m1" "m2" 0 rfl (by decide) rfl (by decide)).1.1
